import Mathlib

/-!
Verification development for the chisme backend's real-time layer.

This file gives a shallow embedding, in Lean, of the parts of the backend that
implement presence tracking, voice-room state, WebSocket connection management,
the WebSocket handshake, the disconnect cleanup cascade, voice signaling relay,
and the read-receipt cursor, together with theorems about their behaviour.

Sources embedded (paths relative to the repository root):
  * backend/app/redis/presence.py  — presence store operations over Redis
  * backend/app/redis/voice.py     — voice-room store operations over Redis
  * backend/app/websocket/manager.py       — ConnectionManager (server + DM rooms)
  * backend/app/websocket/voice_handler.py — VoiceConnectionManager and /ws/voice loop
  * backend/app/websocket/handlers.py      — _authenticate, channel/DM event loops
  * backend/app/api/channels.py            — mark_channel_read

Modelling conventions:
  * The Redis client obtained from get_redis() is `Option RClient`: `none` models
    `get_redis() is None`; `some .fails` models a client whose awaited calls all
    raise (the exception is absorbed by each operation's blanket handler);
    `some (.store s now)` is a reachable store with state `s` at current time `now`.
  * Redis key strings "presence:{uid}", "voice:{ch}:users" and "voice:user:{uid}"
    form three mutually disjoint injective families, so the store is modelled as
    three association lists keyed by the integral id.  An entry carries an
    optional expiry instant (`none` = no TTL); a key is live while `now < expiry`.
    Redis semantics embedded: SETEX overwrites value and TTL, EXPIRE refreshes a
    live key and does nothing for a missing or expired key (it never creates),
    SADD on a missing/expired key creates a fresh set with no TTL, reads of a
    missing/expired key give the empty answer.  This matches the FakeRedis used
    by the repository's own test-suite.
  * Python `dict`s keyed by user id are association lists `List (Int × _)`;
    WebSocket rooms are the lists of attached user ids, and the transport
    condition is a predicate `ok : Int → Bool` (whether a send to that user's
    handle succeeds).  `dict.pop(uid)` is removal of that key.
  * JSON values are the inductive `Json`; a decoded frame that is not a JSON
    object raises `AttributeError` when `.get` is called on it, as in Python.
  * `Except PyExc α` is the result of code that may let a Python exception
    escape to its caller: `.error e` is an uncaught exception `e`.
  * handlers.py calls `manager.broadcast` and `manager.send_to_user`, attribute
    names that the `ConnectionManager` class in manager.py does not define (it
    defines `broadcast_to_server` and `send_to_user_in_server`); those call
    sites therefore raise `AttributeError` at run time.  The embedding models
    Python attribute lookup on the manager singleton with `managerHasAttr` over
    the list of methods manager.py actually defines.
-/

set_option autoImplicit false

namespace Chisme

/-- Python exceptions that the embedded code can raise or catch. -/
inductive PyExc where
  | attributeError
  | typeError
  | valueError
  | connectionError
  deriving DecidableEq, Repr

/-- JSON values, as produced by `json.loads` on a well-formed document. -/
inductive Json where
  | null
  | bool (b : Bool)
  | num (n : Int)
  | str (s : String)
  | arr (elems : List Json)
  | obj (fields : List (String × Json))

/-- Python dict.get(key) on a decoded JSON object (first binding wins). -/
def jlookup : List (String × Json) → String → Option Json
  | [], _ => none
  | (k, v) :: rest, key => if key = k then some v else jlookup rest key

/-- Python `isinstance(x, int)` on a JSON value (`True`/`False` are `int`s in
Python, so booleans pass the check). -/
def pyIsInt : Json → Bool
  | .num _ => true
  | .bool _ => true
  | _ => false

/-- The integer value of a JSON value that passed `isinstance(x, int)`. -/
def pyIntVal : Json → Int
  | .num n => n
  | .bool b => if b then 1 else 0
  | _ => 0

/-- Python `int(x)` on a JSON value: numbers and booleans convert, numeric
strings parse, anything else raises `TypeError`/`ValueError`. -/
def pyToInt : Json → Except PyExc Int
  | .num n => .ok n
  | .bool b => .ok (if b then 1 else 0)
  | .str s =>
      match s.toInt? with
      | some n => .ok n
      | none => .error .valueError
  | .null => .error .typeError
  | .arr _ => .error .typeError
  | .obj _ => .error .typeError

/-! ## Association-list primitives (model of Python dict / Redis keyspace) -/

/-- Lookup in an association list keyed by `Int` (first match). -/
def alGet {α : Type} : List (Int × α) → Int → Option α
  | [], _ => none
  | (k', v) :: rest, k => if k = k' then some v else alGet rest k

/-- Insert-or-replace in an association list keyed by `Int`. -/
def alSet {α : Type} : List (Int × α) → Int → α → List (Int × α)
  | [], k, v => [(k, v)]
  | (k', v') :: rest, k, v =>
      if k = k' then (k, v) :: rest else (k', v') :: alSet rest k v

/-- Remove a key from an association list. -/
def alRemove {α : Type} (l : List (Int × α)) (k : Int) : List (Int × α) :=
  l.filter (fun p => p.1 != k)

/-! ## The ephemeral store (Redis) -/

/-- Whether an entry with the given optional expiry instant is live at `now`. -/
def liveAt (now : Nat) : Option Nat → Bool
  | none => true
  | some t => now < t

/-- Redis GET: the value if the key exists and is unexpired. -/
def kvGet {α : Type} (l : List (Int × α × Option Nat)) (now : Nat) (k : Int) : Option α :=
  match alGet l k with
  | some (v, e) => if liveAt now e then some v else none
  | none => none

/-- Redis SETEX: store the value with a fresh TTL. -/
def kvSetex {α : Type} (l : List (Int × α × Option Nat)) (now : Nat) (k : Int) (ttl : Nat)
    (v : α) : List (Int × α × Option Nat) :=
  alSet l k (v, some (now + ttl))

/-- Redis DEL. -/
def kvDelete {α : Type} (l : List (Int × α × Option Nat)) (k : Int) :
    List (Int × α × Option Nat) :=
  alRemove l k

/-- Redis EXPIRE: refresh the TTL of a live key; a missing or already-expired
key is untouched (EXPIRE never creates a key). -/
def kvExpire {α : Type} (l : List (Int × α × Option Nat)) (now : Nat) (k : Int) (ttl : Nat) :
    List (Int × α × Option Nat) :=
  match alGet l k with
  | some (v, e) => if liveAt now e then alSet l k (v, some (now + ttl)) else l
  | none => l

/-- Redis SADD: add a member, creating a fresh (TTL-less) set if the key is
missing or expired. -/
def setSadd (l : List (Int × List Int × Option Nat)) (now : Nat) (k : Int) (m : Int) :
    List (Int × List Int × Option Nat) :=
  match alGet l k with
  | some (ms, e) =>
      if liveAt now e then alSet l k (if m ∈ ms then ms else ms ++ [m], e)
      else alSet l k ([m], none)
  | none => alSet l k ([m], none)

/-- Redis SREM: remove a member from a live set; no-op on a missing/expired key. -/
def setSrem (l : List (Int × List Int × Option Nat)) (now : Nat) (k : Int) (m : Int) :
    List (Int × List Int × Option Nat) :=
  match alGet l k with
  | some (ms, e) => if liveAt now e then alSet l k (ms.filter (· != m), e) else l
  | none => l

/-- Redis SMEMBERS of a live set (empty for missing/expired keys). -/
def setMembers (l : List (Int × List Int × Option Nat)) (now : Nat) (k : Int) : List Int :=
  match alGet l k with
  | some (ms, e) => if liveAt now e then ms else []
  | none => []

/-- The JSON blob stored at `voice:user:{uid}` by voice.py
(`json.dumps({"channel_id": .., "muted": .., "video": ..})`). -/
structure VBlob where
  channel_id : Int
  muted : Bool
  video : Bool
  deriving DecidableEq, Repr

/-- The whole Redis keyspace used by presence.py and voice.py, split by the three
disjoint key families. -/
structure RedisState where
  pres : List (Int × String × Option Nat)
  vUser : List (Int × VBlob × Option Nat)
  vChan : List (Int × List Int × Option Nat)
  deriving DecidableEq, Repr

/-- A Redis client as seen by one operation: either every awaited call raises
(`fails`, absorbed by the operation's `except Exception` handler), or calls
operate on store state `s` at the current instant `now`. -/
inductive RClient where
  | fails
  | store (s : RedisState) (now : Nat)
  deriving DecidableEq, Repr

/-- The configured settings.REDIS_PRESENCE_TTL (default 300 s). -/
def REDIS_PRESENCE_TTL : Nat := 300

/-- The store is unreachable: `get_redis()` returned `None`, or the client's
calls raise. -/
def unreachable (r : Option RClient) : Prop :=
  r = none ∨ r = some .fails

/-! ## backend/app/redis/presence.py -/

namespace Presence

def VALID_STATUSES : List String := ["online", "away", "dnd"]

/-- presence.set_online: store the status under `presence:{uid}` with the
presence TTL; invalid statuses are ignored; an unreachable store is a no-op. -/
def set_online (r : Option RClient) (uid : Int) (status : String) : Option RClient :=
  if status ∉ VALID_STATUSES then r
  else
    match r with
    | none => none
    | some .fails => some .fails
    | some (.store s now) =>
        some (.store { s with pres := kvSetex s.pres now uid REDIS_PRESENCE_TTL status } now)

/-- presence.set_offline: delete the `presence:{uid}` key. -/
def set_offline (r : Option RClient) (uid : Int) : Option RClient :=
  match r with
  | none => none
  | some .fails => some .fails
  | some (.store s now) => some (.store { s with pres := kvDelete s.pres uid } now)

/-- The reachable-store core of presence.heartbeat: `EXPIRE presence:{uid}`. -/
def heartbeatAt (s : RedisState) (now : Nat) (uid : Int) : RedisState :=
  { s with pres := kvExpire s.pres now uid REDIS_PRESENCE_TTL }

/-- presence.heartbeat: refresh the TTL without changing the stored value. -/
def heartbeat (r : Option RClient) (uid : Int) : Option RClient :=
  match r with
  | none => none
  | some .fails => some .fails
  | some (.store s now) => some (.store (heartbeatAt s now uid) now)

/-- presence.get_status: the stored status, `"offline"` when the key is absent,
the value falsy (empty), or the store unreachable. -/
def get_status (r : Option RClient) (uid : Int) : String :=
  match r with
  | none => "offline"
  | some .fails => "offline"
  | some (.store s now) =>
      match kvGet s.pres now uid with
      | some v => if v = "" then "offline" else v
      | none => "offline"

/-- presence.get_bulk_status: empty input short-circuits; otherwise one pipelined
GET per id, any miss or an unreachable store mapping to `"offline"`. -/
def get_bulk_status (r : Option RClient) (uids : List Int) : List (Int × String) :=
  if uids = [] then []
  else
    match r with
    | none => uids.map (fun u => (u, "offline"))
    | some .fails => uids.map (fun u => (u, "offline"))
    | some (.store s now) =>
        uids.map (fun u =>
          (u, match kvGet s.pres now u with
              | some v => if v = "" then "offline" else v
              | none => "offline"))

end Presence

/-! ## backend/app/redis/voice.py -/

namespace VoiceR

/-- The reachable-store core of voice.join_voice: the pipeline
`SADD voice:{ch}:users uid; EXPIRE voice:{ch}:users; SETEX voice:user:{uid}`. -/
def join_voice_s (s : RedisState) (now : Nat) (ch uid : Int) (muted video : Bool) :
    RedisState :=
  let s1 := { s with vChan := setSadd s.vChan now ch uid }
  let s2 := { s1 with vChan := kvExpire s1.vChan now ch REDIS_PRESENCE_TTL }
  { s2 with vUser := kvSetex s2.vUser now uid REDIS_PRESENCE_TTL ⟨ch, muted, video⟩ }

/-- voice.join_voice. -/
def join_voice (r : Option RClient) (ch uid : Int) (muted video : Bool) : Option RClient :=
  match r with
  | none => none
  | some .fails => some .fails
  | some (.store s now) => some (.store (join_voice_s s now ch uid muted video) now)

/-- The reachable-store core of voice.leave_voice: the pipeline
`SREM voice:{ch}:users uid; DEL voice:user:{uid}`. -/
def leave_voice_s (s : RedisState) (now : Nat) (ch uid : Int) : RedisState :=
  let s1 := { s with vChan := setSrem s.vChan now ch uid }
  { s1 with vUser := kvDelete s1.vUser uid }

/-- voice.leave_voice. -/
def leave_voice (r : Option RClient) (ch uid : Int) : Option RClient :=
  match r with
  | none => none
  | some .fails => some .fails
  | some (.store s now) => some (.store (leave_voice_s s now ch uid) now)

/-- The reachable-store core of voice.update_state: unconditionally
`SETEX voice:user:{uid}` with the new flag blob (no membership check). -/
def update_state_s (s : RedisState) (now : Nat) (uid ch : Int) (muted video : Bool) :
    RedisState :=
  { s with vUser := kvSetex s.vUser now uid REDIS_PRESENCE_TTL ⟨ch, muted, video⟩ }

/-- voice.update_state. -/
def update_state (r : Option RClient) (uid ch : Int) (muted video : Bool) : Option RClient :=
  match r with
  | none => none
  | some .fails => some .fails
  | some (.store s now) => some (.store (update_state_s s now uid ch muted video) now)

/-- voice.get_channel_voice_users: the members of `voice:{ch}:users`, `[]` when
absent or the store unreachable. -/
def get_channel_voice_users (r : Option RClient) (ch : Int) : List Int :=
  match r with
  | none => []
  | some .fails => []
  | some (.store s now) => setMembers s.vChan now ch

/-- voice.get_user_voice_state: the decoded blob at `voice:user:{uid}`, `none`
when absent or the store unreachable. -/
def get_user_voice_state (r : Option RClient) (uid : Int) : Option VBlob :=
  match r with
  | none => none
  | some .fails => none
  | some (.store s now) => kvGet s.vUser now uid

/-- voice.get_bulk_voice_states: empty input short-circuits; otherwise one
pipelined GET per id, misses and unreachable stores mapping to `none`. -/
def get_bulk_voice_states (r : Option RClient) (uids : List Int) :
    List (Int × Option VBlob) :=
  if uids = [] then []
  else
    match r with
    | none => uids.map (fun u => (u, none))
    | some .fails => uids.map (fun u => (u, none))
    | some (.store s now) => uids.map (fun u => (u, kvGet s.vUser now u))

end VoiceR

/-! ## backend/app/websocket/manager.py — ConnectionManager -/

namespace CM

/-- The `uid == exclude_user_id` test of the broadcast loop (`None` matches no
integer id). -/
def excludeMatch (exclude : Option Int) (u : Int) : Bool :=
  match exclude with
  | some e => u == e
  | none => false

/-- The broadcast sweep over a snapshot of the room's attachments: skip the
excluded user, try the send on every other handle, collecting (delivered, dead)
in iteration order.  A failed send only adds the handle to `dead`; it never
stops the sweep. -/
def sweep (ok : Int → Bool) (exclude : Option Int) : List Int → List Int × List Int
  | [] => ([], [])
  | u :: rest =>
      if excludeMatch exclude u then sweep ok exclude rest
      else
        let (d, dd) := sweep ok exclude rest
        if ok u then (u :: d, dd) else (d, u :: dd)

/-- Python dict.pop(uid, None) on a room's attachment map (dict keys are unique). -/
def detach (conns : List Int) (u : Int) : List Int :=
  conns.filter (fun x => x != u)

/-- ConnectionManager.broadcast_to_server: sweep every attached handle except
the excluded user, then detach each dead handle after the sweep completes.
Returns (delivered recipients, remaining attachments). -/
def broadcast_to_server (conns : List Int) (ok : Int → Bool) (exclude : Option Int) :
    List Int × List Int :=
  let (delivered, dead) := sweep ok exclude conns
  (delivered, dead.foldl detach conns)

/-- The DM broadcast sweep (no exclusion parameter exists for DMs). -/
def dmSweep (ok : Int → Bool) : List Int → List Int × List Int
  | [] => ([], [])
  | u :: rest =>
      let (d, dd) := dmSweep ok rest
      if ok u then (u :: d, dd) else (d, u :: dd)

/-- ConnectionManager.broadcast_dm: deliver to every attachment of the DM room
(there is no exclude argument), detaching dead handles after the sweep. -/
def broadcast_dm (conns : List Int) (ok : Int → Bool) : List Int × List Int :=
  let (delivered, dead) := dmSweep ok conns
  (delivered, dead.foldl detach conns)

end CM

/-- The attribute names `ConnectionManager` actually defines (manager.py).
`handlers.py` also calls `manager.broadcast` and `manager.send_to_user`, which
are NOT in this list: those attribute lookups raise `AttributeError` at run
time. -/
def managerAttrs : List String :=
  ["connect", "disconnect", "broadcast_to_server", "send_to_user_in_server",
   "get_server_users", "voice_user_join", "voice_user_leave", "voice_user_update",
   "get_voice_users", "is_in_voice", "connect_dm", "disconnect_dm", "broadcast_dm",
   "send_personal"]

/-- Python attribute lookup on the `manager` singleton. -/
def managerHasAttr (name : String) : Bool :=
  managerAttrs.contains name

/-! ## backend/app/websocket/voice_handler.py — VoiceConnectionManager -/

namespace VCM

/-- The per-user dict stored in `VoiceConnectionManager._voice_users`. -/
structure VoiceUserState where
  user_id : Int
  username : String
  muted : Bool
  video : Bool
  speaking : Bool
  deriving DecidableEq, Repr

/-- VoiceConnectionManager.join_voice: insert/overwrite the participant record
(speaking resets to false). -/
def join_voice (vu : List (Int × VoiceUserState)) (uid : Int) (username : String)
    (muted video : Bool) : List (Int × VoiceUserState) :=
  alSet vu uid ⟨uid, username, muted, video, false⟩

/-- VoiceConnectionManager.leave_voice: pop the record; the Bool reports whether
it existed. -/
def leave_voice (vu : List (Int × VoiceUserState)) (uid : Int) :
    List (Int × VoiceUserState) × Bool :=
  (alRemove vu uid, (alGet vu uid).isSome)

/-- VoiceConnectionManager.update_voice: mutate the three flags only if the
user currently has a participant record; silent no-op otherwise. -/
def update_voice (vu : List (Int × VoiceUserState)) (uid : Int)
    (muted video speaking : Bool) : List (Int × VoiceUserState) :=
  match alGet vu uid with
  | some st => alSet vu uid { st with muted := muted, video := video, speaking := speaking }
  | none => vu

/-- VoiceConnectionManager.is_in_voice. -/
def is_in_voice (vu : List (Int × VoiceUserState)) (uid : Int) : Bool :=
  (alGet vu uid).isSome

/-- VoiceConnectionManager.broadcast: the same sweep-then-detach loop as
ConnectionManager.broadcast_to_server, over the global voice connection map. -/
def broadcast (conns : List Int) (ok : Int → Bool) (exclude : Option Int) :
    List Int × List Int :=
  let (delivered, dead) := CM.sweep ok exclude conns
  (delivered, dead.foldl CM.detach conns)

/-- VoiceConnectionManager.send_to: targeted delivery; an unknown user is a
no-op, a failed send disconnects that one user.  Returns (delivered, remaining
connections). -/
def send_to (conns : List Int) (ok : Int → Bool) (uid : Int) : List Int × List Int :=
  if conns.contains uid then
    if ok uid then ([uid], conns) else ([], CM.detach conns uid)
  else ([], conns)

end VCM

/-! ## backend/app/websocket/handlers.py — event dispatch -/

/-- The user.typing payload built by both typing call sites. -/
def typingPayload (uid : Int) (username : String) : Json :=
  .obj [("type", .str "user.typing"), ("user_id", .num uid), ("username", .str username)]

/-- dm_ws_handler, user.typing branch (handlers.py:267-271): broadcast the
typing payload over `broadcast_dm` — no exclusion of the sender exists.
Returns the (recipient, payload) deliveries. -/
def dm_handle_typing (sender : Int) (username : String) (conns : List Int)
    (ok : Int → Bool) : List (Int × Json) :=
  (CM.broadcast_dm conns ok).1.map (fun u => (u, typingPayload sender username))

/-- channel_ws_handler, user.typing branch (handlers.py:112-116): the call is
`manager.broadcast(...)`, an attribute `ConnectionManager` does not define, so
the lookup raises `AttributeError`, which the event-loop handler at
handlers.py:208 catches — the event is delivered to no one.  (Had the attribute
existed, the broadcast would also not exclude the sender: no exclude argument
is passed.) -/
def channel_handle_typing (sender : Int) (username : String) (conns : List Int)
    (ok : Int → Bool) : List (Int × Json) :=
  if managerHasAttr "broadcast" then
    (CM.broadcast_to_server conns ok none).1.map (fun u => (u, typingPayload sender username))
  else []

/-- One step of the disconnect cleanup cascade, as observable actions. -/
inductive CascadeStep where
  | leaveVoice
  | detachConn
  | presenceOffline
  | bcast (event : String)
  deriving DecidableEq, Repr

/-- The tail of channel_ws_handler's WebSocketDisconnect block
(handlers.py:226-239): `manager.disconnect`, `presence_mgr.set_offline`, then
broadcasts of user.left and presence.changed.  The broadcast call is
`manager.broadcast`, an attribute the manager does not define: the
`AttributeError` escapes (nothing catches it in this block), so the cascade
stops there.  Returns (actions performed, escaped exception if any). -/
def cascadeTail (t : List CascadeStep) : List CascadeStep × Option PyExc :=
  let t2 := t ++ [.detachConn, .presenceOffline]
  if managerHasAttr "broadcast" then
    (t2 ++ [.bcast "user.left", .bcast "presence.changed"], none)
  else (t2, some .attributeError)

/-- channel_ws_handler's WebSocketDisconnect block (handlers.py:211-239): if the
user's voice state names this channel, leave voice and broadcast
voice.user_left, then detach, set presence offline, and broadcast user.left and
presence.changed.  Each broadcast is a `manager.broadcast` call whose attribute
lookup raises. -/
def channelDisconnectCascade (voiceState : Option VBlob) (channelId : Int) :
    List CascadeStep × Option PyExc :=
  match voiceState with
  | some blob =>
      if blob.channel_id = channelId then
        if managerHasAttr "broadcast" then
          cascadeTail [.leaveVoice, .bcast "voice.user_left"]
        else ([.leaveVoice], some .attributeError)
      else cascadeTail []
  | none => cascadeTail []

/-- The full action list the cleanup cascade is specified to perform for a user
who is a voice participant of this channel. -/
def specifiedCascade : List CascadeStep :=
  [.leaveVoice, .bcast "voice.user_left", .detachConn, .presenceOffline,
   .bcast "user.left", .bcast "presence.changed"]

/-! ## Voice signaling relay -/

/-- voice_ws_handler's offer/answer/ice relay (voice_handler.py:193-221): read
`target_user_id`; drop unless it is an `int` (`isinstance`) naming a current
voice participant; otherwise `send_to` the target a payload of the original
type and body with the sender's id attached as `from_user_id`.
Returns the (recipient, payload) deliveries. -/
def voice_relay (vu : List (Int × VCM.VoiceUserState)) (conns : List Int) (ok : Int → Bool)
    (sender : Int) (msgType payloadKey : String) (target : Option Json) (body : Json) :
    List (Int × Json) :=
  let t := target.getD .null
  if !pyIsInt t then []
  else if !(VCM.is_in_voice vu (pyIntVal t)) then []
  else
    (VCM.send_to conns ok (pyIntVal t)).1.map
      (fun u => (u, Json.obj [("type", .str msgType), ("from_user_id", .num sender),
                             (payloadKey, body)]))

/-- channel_ws_handler's offer/answer/ice relay (handlers.py:166-203): if
`target_user_id` is not `None`, call `manager.send_to_user(...)`.  That
attribute does not exist on `ConnectionManager` (manager.py defines
`send_to_user_in_server`), so the lookup raises `AttributeError`, caught by the
event-loop handler at handlers.py:208: the event is delivered to no one,
whatever the target.  Returns (deliveries, the exception caught by the loop). -/
def channel_relay (target : Option Json) : List (Int × Json) × Option PyExc :=
  match target with
  | none => ([], none)
  | some .null => ([], none)
  | some _ => ([], some .attributeError)

/-! ## The WebSocket handshake (_authenticate, handlers.py:19-49) -/

/-- The outcome of awaiting and JSON-decoding the first frame of a connection. -/
inductive Frame where
  | noFrame
  | malformed
  | parsed (j : Json)

/-- What _authenticate produced: a 1008 close, or an authenticated user id. -/
inductive AuthResult where
  | closed1008
  | user (uid : Int)
  deriving DecidableEq, Repr

/-- The `data.get("type") != "auth"` test (any non-string or missing value
differs from "auth"). -/
def isAuthType : Option Json → Bool
  | some (.str s) => s == "auth"
  | _ => false

/-- The handshake gate _authenticate (handlers.py:19-49).  `decode` is the external
`decode_access_token` (None for an invalid credential); `db uid` is whether an
active user row with that id exists.  A socket closed before a frame or a frame
that fails `json.loads` is caught and answered with close(1008).  A decoded
frame that is not a JSON object raises `AttributeError` at `data.get("type")`,
outside the `try`: the exception escapes and no close(1008) is sent. -/
def authenticate (decode : Json → Option (List (String × Json))) (db : Int → Bool) :
    Frame → Except PyExc AuthResult
  | .noFrame => .ok .closed1008
  | .malformed => .ok .closed1008
  | .parsed (.obj fields) =>
      if !isAuthType (jlookup fields "type") then .ok .closed1008
      else
        match decode ((jlookup fields "token").getD (.str "")) with
        | none => .ok .closed1008
        | some payload =>
            match pyToInt ((jlookup payload "sub").getD .null) with
            | .error _ => .ok .closed1008
            | .ok uid => if db uid then .ok (.user uid) else .ok .closed1008
  | .parsed _ => .error .attributeError

/-- channel_ws_handler's entry (handlers.py:52-76): run _authenticate; if it
returned no user the handler returns at once and nothing is broadcast; on
success it attaches, marks presence online and broadcasts user.joined and
presence.changed (as shipped, that first `manager.broadcast` lookup raises).
Returns (handler outcome, events broadcast to the room). -/
def channel_ws_gate (decode : Json → Option (List (String × Json))) (db : Int → Bool)
    (f : Frame) : Except PyExc (Option Int) × List String :=
  match authenticate decode db f with
  | .error e => (.error e, [])
  | .ok .closed1008 => (.ok none, [])
  | .ok (.user uid) =>
      if managerHasAttr "broadcast" then (.ok (some uid), ["user.joined", "presence.changed"])
      else (.error .attributeError, [])

/-! ## backend/app/api/channels.py — mark_channel_read -/

/-- The `latest` query: the greatest id of a non-deleted message of the channel
(messages are (id, is_deleted) pairs), if any. -/
def latest_message (msgs : List (Nat × Bool)) : Option Nat :=
  ((msgs.filter (fun p => !p.2)).map Prod.fst).max?

/-- mark_channel_read's receipt update (channels.py:208-227).  The receipt is
`none` when no row exists, `some cursor` otherwise (the stored
last_read_message_id is nullable).  An existing cursor only ever moves forward:
it is replaced exactly when the latest ordinal strictly exceeds it. -/
def mark_channel_read (receipt : Option (Option Nat)) (latest : Option Nat) :
    Option (Option Nat) :=
  match receipt with
  | some cur =>
      match latest, cur with
      | none, _ => some cur
      | some l, none => some (some l)
      | some l, some c => some (some (if c < l then l else c))
  | none => some latest

/-- The cursor a stored receipt denotes (no row and a null cursor both mean
"never read"). -/
def cursorOf : Option (Option Nat) → Option Nat
  | none => none
  | some c => c

/-- Max of two optional ordinals (`none` is the identity). -/
def omax : Option Nat → Option Nat → Option Nat
  | none, b => b
  | some a, none => some a
  | some a, some b => some (max a b)

/-- Order on optional cursors: `none` is below everything; a present cursor can
only be matched or exceeded by a present cursor. -/
def oLE : Option Nat → Option Nat → Prop
  | none, _ => True
  | some a, b => ∃ b2, b = some b2 ∧ a ≤ b2

/-! # Theorems

First general lemmas about the primitives, then one theorem per claim (with
witnesses and counterexamples where required). -/

/-! ## Association-list and store lemmas -/

theorem alGet_alSet_self {α : Type} (l : List (Int × α)) (k : Int) (v : α) :
    alGet (alSet l k v) k = some v := by
  induction l with
  | nil => simp [alGet, alSet]
  | cons hd tl ih =>
      obtain ⟨k', v'⟩ := hd
      by_cases h : k = k' <;> simp [alGet, alSet, h, ih]

theorem alGet_alSet_ne {α : Type} (l : List (Int × α)) (k k' : Int) (v : α) (h : k' ≠ k) :
    alGet (alSet l k v) k' = alGet l k' := by
  induction l with
  | nil => simp [alGet, alSet, h]
  | cons hd tl ih =>
      obtain ⟨k₀, v₀⟩ := hd
      by_cases hk : k = k₀
      · subst hk
        simp [alGet, alSet, h]
      · by_cases hk' : k' = k₀ <;> simp [alGet, alSet, hk, hk', ih]

theorem kvGet_none_of_le {α : Type} (l : List (Int × α × Option Nat)) (t0 t : Nat) (k : Int)
    (h : kvGet l t0 k = none) (hle : t0 ≤ t) : kvGet l t k = none := by
  unfold kvGet at h ⊢
  cases hget : alGet l k with
  | none => rfl
  | some p =>
      obtain ⟨v, e⟩ := p
      rw [hget] at h
      cases e with
      | none => simp [liveAt] at h
      | some te =>
          simp only [liveAt] at h ⊢
          by_cases hlive : t0 < te
          · simp [hlive] at h
          · have : ¬ t < te := by omega
            simp [this]

theorem kvExpire_of_get_none {α : Type} (l : List (Int × α × Option Nat)) (t : Nat)
    (k : Int) (ttl : Nat) (h : kvGet l t k = none) : kvExpire l t k ttl = l := by
  unfold kvGet at h
  unfold kvExpire
  cases hget : alGet l k with
  | none => rfl
  | some p =>
      obtain ⟨v, e⟩ := p
      rw [hget] at h
      cases hlive : liveAt t e
      · simp [hlive]
      · simp [hlive] at h

theorem liveAt_fresh_ttl (now : Nat) : liveAt now (some (now + REDIS_PRESENCE_TTL)) = true := by
  simp [liveAt, REDIS_PRESENCE_TTL]

theorem kvGet_kvSetex_self {α : Type} (l : List (Int × α × Option Nat)) (now : Nat)
    (k : Int) (v : α) : kvGet (kvSetex l now k REDIS_PRESENCE_TTL v) now k = some v := by
  unfold kvGet kvSetex
  simp [alGet_alSet_self, liveAt_fresh_ttl]

theorem alGet_setSadd_ne (l : List (Int × List Int × Option Nat)) (now : Nat) (k m k' : Int)
    (h : k' ≠ k) : alGet (setSadd l now k m) k' = alGet l k' := by
  unfold setSadd
  cases hget : alGet l k with
  | none => exact alGet_alSet_ne _ _ _ _ h
  | some p =>
      obtain ⟨ms, e⟩ := p
      cases hlive : liveAt now e <;> simp [hlive] <;> exact alGet_alSet_ne _ _ _ _ h

theorem alGet_kvExpire_ne {α : Type} (l : List (Int × α × Option Nat)) (now : Nat)
    (k : Int) (ttl : Nat) (k' : Int) (h : k' ≠ k) :
    alGet (kvExpire l now k ttl) k' = alGet l k' := by
  unfold kvExpire
  cases hget : alGet l k with
  | none => rfl
  | some p =>
      obtain ⟨v, e⟩ := p
      cases hlive : liveAt now e <;> simp [hlive]
      exact alGet_alSet_ne _ _ _ _ h

theorem setMembers_ext (l l2 : List (Int × List Int × Option Nat)) (now : Nat) (k : Int)
    (h : alGet l k = alGet l2 k) : setMembers l now k = setMembers l2 now k := by
  unfold setMembers
  rw [h]

theorem kvExpire_after_set_live (l : List (Int × List Int × Option Nat)) (now : Nat)
    (k : Int) (ms : List Int) (e : Option Nat) (he : liveAt now e = true) :
    kvExpire (alSet l k (ms, e)) now k REDIS_PRESENCE_TTL =
      alSet (alSet l k (ms, e)) k (ms, some (now + REDIS_PRESENCE_TTL)) := by
  unfold kvExpire
  simp [alGet_alSet_self, he]

theorem mem_setMembers_sadd_expire (l : List (Int × List Int × Option Nat)) (now : Nat)
    (k m : Int) :
    m ∈ setMembers (kvExpire (setSadd l now k m) now k REDIS_PRESENCE_TTL) now k := by
  unfold setSadd
  cases hget : alGet l k with
  | none =>
      rw [kvExpire_after_set_live l now k [m] none rfl]
      unfold setMembers
      simp [alGet_alSet_self, liveAt_fresh_ttl]
  | some p =>
      obtain ⟨ms, e⟩ := p
      cases hlive : liveAt now e
      · simp only [hlive, Bool.false_eq_true, if_false]
        rw [kvExpire_after_set_live l now k [m] none rfl]
        unfold setMembers
        simp [alGet_alSet_self, liveAt_fresh_ttl]
      · simp only [hlive, if_true]
        rw [kvExpire_after_set_live l now k (if m ∈ ms then ms else ms ++ [m]) e hlive]
        unfold setMembers
        simp only [alGet_alSet_self, liveAt_fresh_ttl, if_true]
        by_cases hm : m ∈ ms <;> simp [hm]

/-! ## Broadcast sweep characterization -/

theorem sweep_fst (ok : Int → Bool) (exclude : Option Int) (l : List Int) :
    (CM.sweep ok exclude l).1 = l.filter (fun u => !CM.excludeMatch exclude u && ok u) := by
  induction l with
  | nil => rfl
  | cons u rest ih =>
      unfold CM.sweep
      cases hex : CM.excludeMatch exclude u
      · cases hok : ok u <;> simp [hex, hok, List.filter_cons, ih]
      · simp [hex, List.filter_cons, ih]

theorem sweep_snd (ok : Int → Bool) (exclude : Option Int) (l : List Int) :
    (CM.sweep ok exclude l).2 = l.filter (fun u => !CM.excludeMatch exclude u && !ok u) := by
  induction l with
  | nil => rfl
  | cons u rest ih =>
      unfold CM.sweep
      cases hex : CM.excludeMatch exclude u
      · cases hok : ok u <;> simp [hex, hok, List.filter_cons, ih]
      · simp [hex, List.filter_cons, ih]

theorem dmSweep_fst (ok : Int → Bool) (l : List Int) :
    (CM.dmSweep ok l).1 = l.filter ok := by
  induction l with
  | nil => rfl
  | cons u rest ih =>
      unfold CM.dmSweep
      cases hok : ok u <;> simp [hok, List.filter_cons, ih]

theorem dmSweep_snd (ok : Int → Bool) (l : List Int) :
    (CM.dmSweep ok l).2 = l.filter (fun u => !ok u) := by
  induction l with
  | nil => rfl
  | cons u rest ih =>
      unfold CM.dmSweep
      cases hok : ok u <;> simp [hok, List.filter_cons, ih]

theorem foldl_detach_filter (ds l : List Int) :
    ds.foldl CM.detach l = l.filter (fun u => !ds.contains u) := by
  induction ds generalizing l with
  | nil => simp
  | cons d ds ih =>
      rw [List.foldl_cons, ih]
      unfold CM.detach
      rw [List.filter_filter]
      apply List.filter_congr
      intro u _
      by_cases h : u = d <;> simp [List.contains_cons, Bool.and_comm, h]

theorem detach_dead_filter (l : List Int) (p : Int → Bool) :
    (l.filter p).foldl CM.detach l = l.filter (fun u => !p u) := by
  rw [foldl_detach_filter]
  apply List.filter_congr
  intro u hu
  have hc : (l.filter p).contains u = p u := by
    cases hp : p u
    · simp [List.elem_iff, List.mem_filter, hp]
    · simp [List.elem_iff, List.mem_filter, hp, hu]
  rw [hc]

/-! ## C1 — ephemeral-store degradation -/

/-- C1: every Presence/Voice store operation, when the ephemeral store is
unreachable (client `None`, or every call raising and being caught by the
blanket handler), returns without an exception: writes are no-ops on the store
and reads return the defined empty/offline defaults. -/
theorem C1_unreachable_store_degrades (r : Option RClient) (h : unreachable r) :
    (∀ uid status, Presence.set_online r uid status = r) ∧
    (∀ uid, Presence.set_offline r uid = r) ∧
    (∀ uid, Presence.heartbeat r uid = r) ∧
    (∀ uid, Presence.get_status r uid = "offline") ∧
    (∀ uids, Presence.get_bulk_status r uids = uids.map (fun u => (u, "offline"))) ∧
    (∀ ch uid muted video, VoiceR.join_voice r ch uid muted video = r) ∧
    (∀ ch uid, VoiceR.leave_voice r ch uid = r) ∧
    (∀ uid ch muted video, VoiceR.update_state r uid ch muted video = r) ∧
    (∀ ch, VoiceR.get_channel_voice_users r ch = []) ∧
    (∀ uid, VoiceR.get_user_voice_state r uid = none) ∧
    (∀ uids, VoiceR.get_bulk_voice_states r uids = uids.map (fun u => (u, none))) := by
  rcases h with h | h <;> subst h <;>
    refine ⟨?_, ?_, ?_, ?_, ?_, ?_, ?_, ?_, ?_, ?_, ?_⟩ <;>
    intros <;>
    simp [Presence.set_online, Presence.set_offline, Presence.heartbeat,
      Presence.get_status, Presence.get_bulk_status, VoiceR.join_voice,
      VoiceR.leave_voice, VoiceR.update_state, VoiceR.get_channel_voice_users,
      VoiceR.get_user_voice_state, VoiceR.get_bulk_voice_states]

/-- Witness for C1 at a concrete unreachable client. -/
theorem C1_unreachable_store_degrades_witness :
    Presence.get_status none 7 = "offline" ∧ VoiceR.join_voice none 1 2 false false = none :=
  ⟨(C1_unreachable_store_degrades none (Or.inl rfl)).2.2.2.1 7,
   (C1_unreachable_store_degrades none (Or.inl rfl)).2.2.2.2.2.1 1 2 false false⟩

/-! ## C10 — heartbeat on a missing presence record -/

/-- C10: a presence heartbeat for a user with no live presence record (absent,
expired, or deleted) never creates or resurrects the record — Redis EXPIRE on a
missing key is a no-op — so the store is unchanged and `get_status` still
returns `"offline"` after any number of heartbeats at later instants. -/
theorem C10_heartbeat_missing_record_noop (s : RedisState) (uid : Int) (t0 : Nat)
    (ts : List Nat) (habs : kvGet s.pres t0 uid = none) (hts : ∀ t ∈ ts, t0 ≤ t) :
    ts.foldl (fun st t => Presence.heartbeatAt st t uid) s = s ∧
    (∀ t, t0 ≤ t →
      Presence.get_status (some (.store (ts.foldl (fun st t => Presence.heartbeatAt st t uid) s) t))
        uid = "offline") := by
  have hfold : ts.foldl (fun st t => Presence.heartbeatAt st t uid) s = s := by
    induction ts with
    | nil => rfl
    | cons hd tl ih =>
        have hhd : t0 ≤ hd := hts hd (List.mem_cons_self hd tl)
        have hstep : Presence.heartbeatAt s hd uid = s := by
          unfold Presence.heartbeatAt
          have : kvExpire s.pres hd uid REDIS_PRESENCE_TTL = s.pres :=
            kvExpire_of_get_none _ _ _ _ (kvGet_none_of_le _ _ _ _ habs hhd)
          simp [this]
        rw [List.foldl_cons, hstep]
        exact ih (fun t ht => hts t (List.mem_cons_of_mem hd ht))
  refine ⟨hfold, ?_⟩
  intro t ht
  rw [hfold]
  simp only [Presence.get_status, kvGet_none_of_le _ _ _ _ habs ht]

/-- Witness for C10: an empty store, two heartbeats. -/
theorem C10_heartbeat_missing_record_noop_witness :
    List.foldl (fun st t => Presence.heartbeatAt st t 4) ⟨[], [], []⟩ [1, 2] = ⟨[], [], []⟩ ∧
    Presence.get_status (some (.store
      (List.foldl (fun st t => Presence.heartbeatAt st t 4) ⟨[], [], []⟩ [1, 2]) 5)) 4 =
      "offline" := by
  have h := C10_heartbeat_missing_record_noop ⟨[], [], []⟩ 4 0 [1, 2] (by decide)
    (by intro t ht; exact Nat.zero_le t)
  exact ⟨h.1, h.2 5 (Nat.zero_le 5)⟩

/-! ## C5 — broadcast isolation and deferred detach -/

/-- C5: broadcast (both ConnectionManager.broadcast_to_server and
VoiceConnectionManager.broadcast) attempts delivery to every attached handle
except the excluded user; the delivered set and the set of handles detached
afterwards are each determined pointwise by that handle's own transport, so one
peer's failure never affects another's delivery, and dead handles are removed
from the room only after the sweep (delivery is computed over the original
attachment snapshot).  Concretely, with A, B, C attached and C's transport
broken, A and B are delivered and exactly C is detached. -/
theorem C5_broadcast_isolation :
    (∀ (conns : List Int) (ok : Int → Bool) (exclude : Option Int),
      CM.broadcast_to_server conns ok exclude =
        (conns.filter (fun u => !CM.excludeMatch exclude u && ok u),
         conns.filter (fun u => !(!CM.excludeMatch exclude u && !ok u)))) ∧
    (∀ (conns : List Int) (ok : Int → Bool) (exclude : Option Int),
      VCM.broadcast conns ok exclude =
        (conns.filter (fun u => !CM.excludeMatch exclude u && ok u),
         conns.filter (fun u => !(!CM.excludeMatch exclude u && !ok u)))) ∧
    CM.broadcast_to_server [1, 2, 3] (fun u => u != 3) none = ([1, 2], [1, 2]) := by
  have hmain : ∀ (conns : List Int) (ok : Int → Bool) (exclude : Option Int),
      (CM.sweep ok exclude conns).1 = conns.filter (fun u => !CM.excludeMatch exclude u && ok u) ∧
      (CM.sweep ok exclude conns).2.foldl CM.detach conns =
        conns.filter (fun u => !(!CM.excludeMatch exclude u && !ok u)) := by
    intro conns ok exclude
    refine ⟨sweep_fst ok exclude conns, ?_⟩
    rw [sweep_snd]
    exact detach_dead_filter conns (fun u => !CM.excludeMatch exclude u && !ok u)
  refine ⟨?_, ?_, by decide⟩ <;> intro conns ok exclude
  · have h := hmain conns ok exclude
    unfold CM.broadcast_to_server
    rw [Prod.ext_iff]
    exact h
  · have h := hmain conns ok exclude
    unfold VCM.broadcast
    rw [Prod.ext_iff]
    exact h

/-! ## C9 — typing indicator and the sender -/

/-- C9 counterexample: in a DM room with users 1 and 2 attached and healthy
transports, a typing event from user 1 is delivered to both attached
connections — in particular to the sender's own connection (user 1), refuting
the claim that the sender is excluded. -/
theorem C9_counterexample :
    (dm_handle_typing 1 "alice" [1, 2] (fun _ => true)).map Prod.fst = [1, 2] ∧
    1 ∈ (dm_handle_typing 1 "alice" [1, 2] (fun _ => true)).map Prod.fst := by
  constructor
  · rfl
  · rw [show (dm_handle_typing 1 "alice" [1, 2] (fun _ => true)).map Prod.fst = [1, 2] from rfl]
    decide

/-- C9 amended: a typing event is broadcast without excluding the sender.  On
the DM socket it reaches every attached connection with a working transport,
the sender's own included; on the channel socket the broadcast call names a
manager method that does not exist, so the caught AttributeError means the
event reaches no one. -/
theorem C9_amended_typing_not_excluded (sender : Int) (username : String)
    (conns : List Int) (ok : Int → Bool) :
    (dm_handle_typing sender username conns ok).map Prod.fst = conns.filter ok ∧
    channel_handle_typing sender username conns ok = [] := by
  constructor
  · unfold dm_handle_typing CM.broadcast_dm
    rw [List.map_map]
    simp only [dmSweep_fst]
    rw [show (Prod.fst ∘ fun u => (u, typingPayload sender username)) = id from rfl]
    exact List.map_id _
  · unfold channel_handle_typing
    rfl

/-! ## C6 — voice state-update for an absent user -/

/-- C6 counterexample: against an empty store (user 5 joined nothing,
participates in no channel's set), the Redis-backed update_state creates the
user's voice-state record: get_user_voice_state turns from `none` into
`some {channel_id := 2, muted := true, video := true}`, refuting the claim that
a state-update for an absent user creates no participant state. -/
theorem C6_counterexample :
    VoiceR.get_user_voice_state (some (.store ⟨[], [], []⟩ 0)) 5 = none ∧
    VoiceR.get_channel_voice_users (some (.store ⟨[], [], []⟩ 0)) 2 = [] ∧
    VoiceR.get_user_voice_state
      (VoiceR.update_state (some (.store ⟨[], [], []⟩ 0)) 5 2 true true) 5 =
      some ⟨2, true, true⟩ := by
  decide

/-- C6 amended: the in-memory VoiceConnectionManager.update_voice mutates the
flags only when the user currently has a participant record and is a silent
no-op otherwise; the Redis-backed update_state instead unconditionally
(re)writes the user's voice-state record — creating it even for an absent
user — though it touches no channel's participant set and raises no error. -/
theorem C6_amended_update_state (vu : List (Int × VCM.VoiceUserState)) (uid : Int)
    (muted video speaking : Bool) :
    (VCM.is_in_voice vu uid = false → VCM.update_voice vu uid muted video speaking = vu) ∧
    (∀ st, alGet vu uid = some st →
      VCM.update_voice vu uid muted video speaking =
        alSet vu uid { st with muted := muted, video := video, speaking := speaking }) ∧
    (∀ (s : RedisState) (now : Nat) (ch : Int),
      VoiceR.get_user_voice_state
          (VoiceR.update_state (some (.store s now)) uid ch muted video) uid =
        some ⟨ch, muted, video⟩ ∧
      ∀ c, VoiceR.get_channel_voice_users
          (VoiceR.update_state (some (.store s now)) uid ch muted video) c =
        VoiceR.get_channel_voice_users (some (.store s now)) c) := by
  refine ⟨?_, ?_, ?_⟩
  · intro h
    unfold VCM.is_in_voice at h
    unfold VCM.update_voice
    cases hget : alGet vu uid
    · rfl
    · rw [hget] at h
      simp at h
  · intro st hst
    unfold VCM.update_voice
    rw [hst]
  · intro s now ch
    constructor
    · unfold VoiceR.get_user_voice_state VoiceR.update_state VoiceR.update_state_s
      exact kvGet_kvSetex_self _ _ _ _
    · intro c
      unfold VoiceR.get_channel_voice_users VoiceR.update_state VoiceR.update_state_s
      rfl

/-- Witness for the C6 amendment: user 5 absent from the in-memory map (no-op)
and the Redis write at a concrete empty store. -/
theorem C6_amended_update_state_witness :
    VCM.update_voice [] 5 true true true = [] ∧
    VoiceR.get_user_voice_state
      (VoiceR.update_state (some (.store ⟨[], [], []⟩ 0)) 5 2 true true) 5 =
      some ⟨2, true, true⟩ :=
  ⟨(C6_amended_update_state [] 5 true true true).1 (by decide),
   ((C6_amended_update_state [] 5 true true true).2.2 ⟨[], [], []⟩ 0 2).1⟩

/-! ## C7 — one voice room per user -/

/-- C7 counterexample: starting from an empty store, user 100 joins channel 1
and then channel 2; afterwards user 100 is a member of BOTH channels'
participant sets, refuting the claim that joining room B removes the user from
room A (or is rejected). -/
theorem C7_counterexample :
    100 ∈ VoiceR.get_channel_voice_users
      (VoiceR.join_voice (VoiceR.join_voice (some (.store ⟨[], [], []⟩ 0)) 1 100 false false)
        2 100 false false) 1 ∧
    100 ∈ VoiceR.get_channel_voice_users
      (VoiceR.join_voice (VoiceR.join_voice (some (.store ⟨[], [], []⟩ 0)) 1 100 false false)
        2 100 false false) 2 := by
  decide

/-- C7 amended: join_voice adds the user to the new channel's participant set
and overwrites the user's single per-user voice-state record with the new
channel, but never removes the user from a previously joined channel's set: a
user who joins channel B while a member of channel A stays in A's participant
set (until an explicit leave or TTL expiry) while also appearing in B's, so a
user can be in two participant sets at once; only the per-user record is
single-valued. -/
theorem C7_amended_join_keeps_old_membership (s : RedisState) (now : Nat)
    (chA chB uid : Int) (muted video : Bool) (hne : chA ≠ chB)
    (hA : uid ∈ setMembers s.vChan now chA) :
    uid ∈ VoiceR.get_channel_voice_users
      (VoiceR.join_voice (some (.store s now)) chB uid muted video) chA ∧
    uid ∈ VoiceR.get_channel_voice_users
      (VoiceR.join_voice (some (.store s now)) chB uid muted video) chB ∧
    VoiceR.get_user_voice_state
      (VoiceR.join_voice (some (.store s now)) chB uid muted video) uid =
      some ⟨chB, muted, video⟩ := by
  unfold VoiceR.join_voice VoiceR.get_channel_voice_users VoiceR.get_user_voice_state
    VoiceR.join_voice_s
  simp only
  refine ⟨?_, ?_, ?_⟩
  · have hext : setMembers (kvExpire (setSadd s.vChan now chB uid) now chB
        REDIS_PRESENCE_TTL) now chA = setMembers s.vChan now chA := by
      apply setMembers_ext
      rw [alGet_kvExpire_ne _ _ _ _ _ hne, alGet_setSadd_ne _ _ _ _ _ hne]
    rw [hext]
    exact hA
  · exact mem_setMembers_sadd_expire _ _ _ _
  · exact kvGet_kvSetex_self _ _ _ _

/-- Witness for the C7 amendment: user 100 joined channel 1 (concrete store),
then joins channel 2 and remains in channel 1's set. -/
theorem C7_amended_join_keeps_old_membership_witness :
    100 ∈ VoiceR.get_channel_voice_users
      (VoiceR.join_voice (some (.store (VoiceR.join_voice_s ⟨[], [], []⟩ 0 1 100 false false) 0))
        2 100 false false) 1 :=
  (C7_amended_join_keeps_old_membership (VoiceR.join_voice_s ⟨[], [], []⟩ 0 1 100 false false)
    0 1 2 100 false false (by decide) (by decide)).1

/-! ## C3 — the disconnect cleanup cascade -/

/-- C3 evaluation at the failing input: for a user who is a voice participant
of the channel (and likewise for one who is not), the shipped cascade raises
`AttributeError` at the first `manager.broadcast` call (`ConnectionManager`
defines `broadcast_to_server`, not `broadcast`), so the specified ordered
cascade (voice leave + voice.user_left, detach, setOffline, user.left,
presence.changed) is never completed: after the voice-leave step nothing else
runs, and in the no-voice case the two final broadcasts never happen. -/
theorem C3_cascade_aborts :
    channelDisconnectCascade (some ⟨1, false, false⟩) 1 =
      ([.leaveVoice], some .attributeError) ∧
    channelDisconnectCascade none 1 =
      ([.detachConn, .presenceOffline], some .attributeError) ∧
    (channelDisconnectCascade (some ⟨1, false, false⟩) 1).1 ≠ specifiedCascade ∧
    managerHasAttr "broadcast" = false := by
  decide

/-! ## C4 — voice signaling relay gating -/

/-- C4 evaluation at the failing input: on the global voice socket the relay
behaves as specified (an offer from user 1 to user 2, a connected voice
participant, is delivered to exactly user 2 with from_user_id attached), but on
the channel socket the same offer is delivered to no one: the call site
`manager.send_to_user` names a method `ConnectionManager` does not define, so
every channel-socket relay — valid target or not — is dropped after a caught
`AttributeError`, contradicting the claim (and the repository's own relay
tests, which exercise the channel socket). -/
theorem C4_channel_relay_delivers_nothing :
    voice_relay [(2, ⟨2, "bob", false, false, false⟩)] [2] (fun _ => true) 1 "voice.offer"
        "sdp" (some (.num 2)) (.str "sdp-blob") =
      [(2, Json.obj [("type", .str "voice.offer"), ("from_user_id", .num 1),
                     ("sdp", .str "sdp-blob")])] ∧
    channel_relay (some (.num 2)) = ([], some .attributeError) ∧
    managerHasAttr "send_to_user" = false :=
  ⟨rfl, rfl, rfl⟩

/-! ## C2 — the handshake gate -/

/-- C2 counterexample: a first frame that is well-formed JSON but not an object
(here the JSON array `[]`) is "anything other than a well-formed auth frame",
yet _authenticate does not close the connection with 1008: `data.get("type")`
raises `AttributeError` outside the `try`, and the exception escapes. -/
theorem C2_counterexample :
    authenticate (fun _ => none) (fun _ => false) (.parsed (.arr [])) =
      .error .attributeError ∧
    authenticate (fun _ => none) (fun _ => false) (.parsed (.arr [])) ≠
      .ok .closed1008 :=
  ⟨rfl, fun h => Except.noConfusion h⟩

/-- C2 amended: if the socket closes before a frame, the frame fails JSON
parsing, or the frame parses to a JSON object that is not a valid auth frame
(wrong/missing type, invalid token, unknown user), _authenticate closes the
connection with code 1008; object frames never leak an exception; a well-formed
JSON frame that is not an object instead raises an uncaught `AttributeError`
(no 1008 close is sent).  In every non-authenticated outcome the channel
handler broadcasts nothing to any peer. -/
theorem C2_amended_handshake_gate (decode : Json → Option (List (String × Json)))
    (db : Int → Bool) :
    (authenticate decode db .noFrame = .ok .closed1008) ∧
    (authenticate decode db .malformed = .ok .closed1008) ∧
    (∀ fields, isAuthType (jlookup fields "type") = false →
      authenticate decode db (.parsed (.obj fields)) = .ok .closed1008) ∧
    (∀ fields, decode ((jlookup fields "token").getD (.str "")) = none →
      authenticate decode db (.parsed (.obj fields)) = .ok .closed1008) ∧
    (∀ fields, ∃ r, authenticate decode db (.parsed (.obj fields)) = .ok r) ∧
    (∀ j, (∀ fields, j ≠ .obj fields) →
      authenticate decode db (.parsed j) = .error .attributeError) ∧
    (∀ f, (∀ uid, authenticate decode db f ≠ .ok (.user uid)) →
      (channel_ws_gate decode db f).2 = []) := by
  refine ⟨rfl, rfl, ?_, ?_, ?_, ?_, ?_⟩
  · intro fields h
    unfold authenticate
    simp [h]
  · intro fields h
    unfold authenticate
    cases hT : isAuthType (jlookup fields "type")
    · simp [hT]
    · simp [hT, h]
  · intro fields
    unfold authenticate
    cases hT : isAuthType (jlookup fields "type")
    · exact ⟨.closed1008, by simp [hT]⟩
    · rcases hdec : decode ((jlookup fields "token").getD (.str "")) with _ | payload
      · exact ⟨.closed1008, by simp [hT, hdec]⟩
      · rcases hint : pyToInt ((jlookup payload "sub").getD .null) with e | uid
        · exact ⟨.closed1008, by simp [hT, hdec, hint]⟩
        · by_cases hdb : db uid
          · exact ⟨.user uid, by simp [hT, hdec, hint, hdb]⟩
          · exact ⟨.closed1008, by simp [hT, hdec, hint, hdb]⟩
  · intro j hj
    cases j with
    | null => rfl
    | bool b => rfl
    | num n => rfl
    | str s => rfl
    | arr elems => rfl
    | obj fields => exact absurd rfl (hj fields)
  · intro f hne
    unfold channel_ws_gate
    cases ha : authenticate decode db f with
    | error e => rfl
    | ok r =>
        cases r with
        | closed1008 => rfl
        | user uid => exact absurd ha (hne uid)

/-- Witness for the C2 amendment: a first frame `{"type": "hello"}` is closed
with 1008 (and, by the gate conjunct, broadcasts nothing). -/
theorem C2_amended_handshake_gate_witness :
    authenticate (fun _ => none) (fun _ => false) (.parsed (.obj [("type", .str "hello")])) =
      .ok .closed1008 :=
  (C2_amended_handshake_gate (fun _ => none) (fun _ => false)).2.2.1
    [("type", .str "hello")] rfl

/-! ## C8 — unread-cursor monotonicity -/

/-- C8: mark_channel_read is exactly a `max` against the existing cursor: one
step yields `omax` of the old cursor and the latest ordinal, the cursor never
decreases, a fold over any sequence of observations is the running `omax`, and
starting from no receipt the final cursor is the maximum ordinal observed. -/
theorem C8_cursor_monotone_max :
    (∀ r l, cursorOf (mark_channel_read r l) = omax (cursorOf r) l) ∧
    (∀ r l, oLE (cursorOf r) (cursorOf (mark_channel_read r l))) ∧
    (∀ (ls : List (Option Nat)) (r0 : Option (Option Nat)),
      cursorOf (ls.foldl mark_channel_read r0) = ls.foldl omax (cursorOf r0)) ∧
    (∀ ms : List Nat, cursorOf ((ms.map some).foldl mark_channel_read none) = ms.max?) := by
  have hstep : ∀ r l, cursorOf (mark_channel_read r l) = omax (cursorOf r) l := by
    intro r l
    rcases r with _ | cur
    · rcases l with _ | a <;> rfl
    · rcases l with _ | a
      · rcases cur with _ | c <;> rfl
      · rcases cur with _ | c
        · rfl
        · show some (if c < a then a else c) = some (max c a)
          congr 1
          rw [Nat.max_def]
          split <;> split <;> omega
  have hfold : ∀ (ls : List (Option Nat)) (r0 : Option (Option Nat)),
      cursorOf (ls.foldl mark_channel_read r0) = ls.foldl omax (cursorOf r0) := by
    intro ls
    induction ls with
    | nil => intro r0; rfl
    | cons l ls ih =>
        intro r0
        rw [List.foldl_cons, List.foldl_cons, ih, hstep]
  have hsome : ∀ (as : List Nat) (x : Nat),
      (as.map some).foldl omax (some x) = some (as.foldl max x) := by
    intro as
    induction as with
    | nil => intro x; rfl
    | cons a as ih =>
        intro x
        rw [List.map_cons, List.foldl_cons, List.foldl_cons]
        show (as.map some).foldl omax (some (max x a)) = some (as.foldl max (max x a))
        exact ih (max x a)
  refine ⟨hstep, ?_, hfold, ?_⟩
  · intro r l
    rw [hstep]
    rcases cursorOf r with _ | x
    · trivial
    · rcases l with _ | y
      · exact ⟨x, rfl, Nat.le_refl x⟩
      · exact ⟨max x y, rfl, Nat.le_max_left x y⟩
  · intro ms
    rw [hfold]
    rcases ms with _ | ⟨a, as⟩
    · rfl
    · rw [List.map_cons, List.foldl_cons]
      show (as.map some).foldl omax (some a) = (a :: as).max?
      rw [hsome]
      rfl

end Chisme
